import Mathlib

/-!
Shallow embedding of the user-account and media-link management API
(router, auth controller, auth middleware, user controller, Sequelize user
model).  Machine integers do not overflow in the modelled code paths, so
timestamps, versions and lengths are modelled as `Nat`; JWT strings are
modelled as records of their signed content (payload, secret, expiry), so
that string equality of encoded tokens corresponds to record equality.
-/

namespace UserApi

/-- A stored YouTube link entry (element of the `youtube_links` JSONB column).
Fields are optional because entries are arbitrary JSON objects: the content
aggregator explicitly guards against entries lacking `id` or `url`.  `addedAt`
is an ISO timestamp in the source, modelled as a `Nat` time value; a missing
timestamp is `none`. -/
structure LinkEntry where
  id : Option String
  url : Option String
  title : Option String
  addedAt : Option Nat
deriving DecidableEq, Repr

/-- Payload of a signed JWT: `{ userId }` for access tokens,
`{ userId, version }` for refresh tokens (`version` is `none` when the
`version` claim is absent, as in access tokens). -/
structure JwtPayload where
  userId : String
  version : Option Nat
deriving DecidableEq, Repr

/-- A signed JWT, modelled by its signed content: payload, signing secret and
absolute expiry time.  Two encoded token strings are equal exactly when these
components coincide. -/
structure Jwt where
  payload : JwtPayload
  secret : String
  exp : Nat
deriving DecidableEq, Repr

/-- The hard-coded signing secret that appears literally in the auth
controller (`jwt.sign(..., "04058abe...", ...)` and `jwt.verify` calls). -/
def jwtSecretLiteral : String :=
  "04058abefa84d9a7109e55111830e7e1d01474d8d10e667b8d1b9ba38b55447c"

/-- Access-token lifetime: `expiresIn: "1d"`, in seconds. -/
def accessTokenLife : Nat := 86400

/-- Refresh-token lifetime: `expiresIn: "7d"`, in seconds. -/
def refreshTokenLife : Nat := 604800

/-- Model of `jwt.verify(token, secret)` at time `now`: succeeds with the
decoded payload when the token was signed with `secret` and has not expired,
otherwise fails (`JsonWebTokenError` / `TokenExpiredError`). -/
def jwtVerify (t : Jwt) (secret : String) (now : Nat) : Option JwtPayload :=
  if t.secret = secret ∧ now < t.exp then some t.payload else none

/-- A row of the `users` table (Sequelize `User` model). -/
structure UserRec where
  id : String
  name : String
  email : String
  password : String
  refreshTok : Option Jwt
  tokenVersion : Nat
  bio : Option String
  location : Option String
  profilePicture : Option String
  youtubeLinks : List LinkEntry
deriving DecidableEq, Repr

/-- Abstract model of `bcrypt.hash` (with a fresh salt folded in): an
injective renaming of the plaintext.  Only the fact that hashing happens on
password change matters to the claims, not the hash algorithm itself. -/
def bcryptHash (pw : String) : String := "bcrypt$" ++ pw

/-- Model of the Sequelize `beforeUpdate` hook composed with the write: when
the password field was changed by the update, the hook re-hashes it and
increments `tokenVersion`; otherwise the write goes through untouched.
`old` is the row as currently stored, `upd` the row with the updated fields
assigned. -/
def sequelizeUpdate (old upd : UserRec) : UserRec :=
  if upd.password = old.password then upd
  else { upd with password := bcryptHash upd.password,
                  tokenVersion := upd.tokenVersion + 1 }

/-- Model of `User.findByPk` / `User.findOne({where:{id}})` over the list of
rows. -/
def findUser (store : List UserRec) (uid : String) : Option UserRec :=
  store.find? (fun u => u.id = uid)

/-- Model of `generateTokens(user)` in the auth controller: signs an access
token `{userId}` (1 day) and a refresh token `{userId, version}` (7 days)
with the hard-coded secret, stores the refresh token on the user row and
saves it (running the `beforeUpdate` hook).  Returns
(accessToken, refreshToken, updated user). -/
def generateTokens (u : UserRec) (now : Nat) : Jwt × Jwt × UserRec :=
  let access : Jwt :=
    { payload := { userId := u.id, version := none },
      secret := jwtSecretLiteral, exp := now + accessTokenLife }
  let refresh : Jwt :=
    { payload := { userId := u.id, version := some u.tokenVersion },
      secret := jwtSecretLiteral, exp := now + refreshTokenLife }
  let u' := sequelizeUpdate u { u with refreshTok := some refresh }
  (access, refresh, u')

/-- Result of the `authorize` middleware: either a 401 rejection with a
message, or the request proceeds with `req.user` set to the row found. -/
inductive AuthResult where
  | denied (status : Nat) (msg : String)
  | granted (u : UserRec)
deriving DecidableEq, Repr

/-- Whether the middleware let the request through. -/
def AuthResult.isGranted : AuthResult → Bool
  | .granted _ => true
  | .denied _ _ => false

/-- Model of the `authorize` middleware (auth.middleware.js): extract the
bearer token, reject if absent; reject if blacklisted; verify it with the
secret taken from the `JWT_SECRET` environment variable (`envSecret` here —
note: not the literal used for signing); reject tokens without a `userId`
claim; load the user and reject if gone; otherwise grant. -/
def authorize (store : List UserRec) (blacklist : List Jwt)
    (envSecret : String) (tok? : Option Jwt) (now : Nat) : AuthResult :=
  match tok? with
  | none => .denied 401 "Authentication required. Please log in."
  | some t =>
    if blacklist.contains t then
      .denied 401 "Session has been invalidated. Please log in again."
    else
      match jwtVerify t envSecret now with
      | none => .denied 401 "Invalid authentication token. Please log in again."
      | some d =>
        if d.userId = "" then
          .denied 401 "Authentication failed. Please log in again."
        else
          match findUser store d.userId with
          | none => .denied 401 "User no longer exists. Please register again."
          | some u => .granted u

/-- Row transformation performed by `signOut` on the signed-out user:
`user.tokenVersion += 1; user.refreshToken = null`. -/
def bumpedOnSignOut (u : UserRec) : UserRec :=
  { u with tokenVersion := u.tokenVersion + 1, refreshTok := none }

/-- Model of the `signOut` controller body.  It always responds 200.  When a
token is present it is added to the in-memory blacklist before verification;
if it verifies (against the hard-coded secret) and carries a `userId` and
`req.user` was set by the middleware, the user's `tokenVersion` is bumped and
the stored refresh token cleared (a save, so the `beforeUpdate` hook runs).
Returns (status, users, blacklist). -/
def signOutController (store : List UserRec) (blacklist : List Jwt)
    (tok? : Option Jwt) (reqUserSet : Bool) (now : Nat) :
    Nat × List UserRec × List Jwt :=
  match tok? with
  | none => (200, store, blacklist)
  | some t =>
    let bl := t :: blacklist
    match jwtVerify t jwtSecretLiteral now with
    | none => (200, store, bl)
    | some d =>
      if d.userId ≠ "" ∧ reqUserSet then
        match findUser store d.userId with
        | none => (200, store, bl)
        | some u =>
          let u' := sequelizeUpdate u (bumpedOnSignOut u)
          (200, store.map (fun w => if w.id = d.userId then u' else w), bl)
      else (200, store, bl)

/-- Model of the whole `POST /auth/signout` route: the router composes the
`authorize` middleware with the `signOut` controller
(`authRouter.post("/signout", authorize, signOut)`). -/
def signoutRoute (store : List UserRec) (blacklist : List Jwt)
    (envSecret : String) (tok? : Option Jwt) (now : Nat) :
    Nat × List UserRec × List Jwt :=
  match authorize store blacklist envSecret tok? now with
  | .denied s _ => (s, store, blacklist)
  | .granted _ => signOutController store blacklist tok? true now

/-- Outcome of `POST /auth/refresh-token`. -/
inductive RefreshOutcome where
  | badRequest
  | denied (msg : String)
  | ok (access : Jwt)
deriving DecidableEq, Repr

/-- Whether the refresh outcome is a 401 rejection. -/
def RefreshOutcome.is401 : RefreshOutcome → Bool
  | .denied _ => true
  | _ => false

/-- Model of the `refreshToken` controller: 400 when no token was sent;
401 when the token does not verify against the hard-coded secret, when the
user it names does not exist or its stored refresh token differs, or when
the embedded `version` claim differs from the user's current `tokenVersion`;
otherwise 200 with a freshly signed access token.  No path writes to the
store, which is returned unchanged alongside the outcome. -/
def refreshEndpoint (store : List UserRec) (tok? : Option Jwt) (now : Nat) :
    RefreshOutcome × List UserRec :=
  match tok? with
  | none => (.badRequest, store)
  | some t =>
    match jwtVerify t jwtSecretLiteral now with
    | none => (.denied "Invalid or expired refresh token", store)
    | some d =>
      match findUser store d.userId with
      | none => (.denied "Invalid refresh token", store)
      | some u =>
        if u.refreshTok ≠ some t then
          (.denied "Invalid refresh token", store)
        else if d.version ≠ some u.tokenVersion then
          (.denied "Token version mismatch. Please login again.", store)
        else
          (.ok { payload := { userId := u.id, version := none },
                 secret := jwtSecretLiteral, exp := now + accessTokenLife },
           store)

/-- Model of the JS idiom `x || d` on an optional string field: `undefined`
and the empty string both fall back to the default. -/
def jsOr (x? : Option String) (d : String) : String :=
  match x? with
  | some x => if x = "" then d else x
  | none => d

/-- Coarse model of Joi's `.email()` format check.  Its exact format rules
are library internals no claim depends on; only that some supplied emails
pass and the field is otherwise a string matters here. -/
def isEmailB (s : String) : Bool := s.data.contains '@'

/-- Model of the Joi `updateProfile` schema: optional name of 3-50 chars,
optional email, optional bio (may be empty), optional location of at most
100 chars. -/
def validUpdateBody (name? email? _bio? loc? : Option String) : Bool :=
  (match name? with
   | some n => decide (3 ≤ n.length) && decide (n.length ≤ 50)
   | none => true) &&
  (match email? with
   | some e => isEmailB e
   | none => true) &&
  (match loc? with
   | some l => decide (l.length ≤ 100)
   | none => true)

/-- Model of the `updateProfile` controller acting on the authenticated
user's row `u`.  `store` is the full user table (used for the email
uniqueness check), `file?` the path of an uploaded picture if any.
Returns (status, resulting row): 400 on validation failure, 409 when the
new email is already taken, otherwise 200 after writing name/email/bio/
location (and picture when uploaded) through `user.update`, which runs the
`beforeUpdate` hook. -/
def updateProfileRoute (store : List UserRec) (u : UserRec)
    (name? email? bio? loc? file? : Option String) : Nat × UserRec :=
  if validUpdateBody name? email? bio? loc? = false then (400, u)
  else if (match email? with
           | some e =>
               (e != "") && (e != u.email) && store.any (fun w => w.email = e)
           | none => false) then (409, u)
  else
    let upd : UserRec :=
      { u with
        name := jsOr name? u.name,
        email := jsOr email? u.email,
        bio := (match bio? with | some b => some b | none => u.bio),
        location := (match loc? with | some l => some l | none => u.location),
        profilePicture :=
          (match file? with | some f => some f | none => u.profilePicture) }
    (200, sequelizeUpdate u upd)

/-- Character-list test that `pre` starts the list `s` (first argument is
the candidate initial segment). -/
def charsStart : List Char → List Char → Bool
  | [], _ => true
  | _ :: _, [] => false
  | c :: cs, d :: ds => c = d && charsStart cs ds

/-- String version of `charsStart`: does `s` start with `pre`. -/
def strStarts (s pre : String) : Bool := charsStart pre.data s.data

/-- Drop the first `n` characters of a string. -/
def strDrop (s : String) (n : Nat) : String := String.mk (s.data.drop n)

/-- Model of the Joi YouTube-URL pattern
`^(https?://)?(www[.])?(youtube[.]com|youtu[.]be)/.*$`: an optional scheme,
an optional `www.`, then one of the two domains followed by a slash. -/
def isYoutubeUrl (s : String) : Bool :=
  let s1 :=
    if strStarts s "https://" then strDrop s 8
    else if strStarts s "http://" then strDrop s 7
    else s
  let s2 := if strStarts s1 "www." then strDrop s1 4 else s1
  strStarts s2 "youtube.com/" || strStarts s2 "youtu.be/"

/-- The link entry built by `addYoutubeLink`: id is `Date.now().toString()`,
`addedAt` the current time. -/
def mkNewLink (url title : String) (now : Nat) : LinkEntry :=
  { id := some (toString now), url := some url,
    title := some title, addedAt := some now }

/-- Model of the `addYoutubeLink` controller on the authenticated user's
row: 400 when the Joi schema rejects the body (YouTube-pattern URL required,
nonempty title of at most 100 chars), else append a fresh link entry and
write it back (201).  Returns (status, resulting row, created link). -/
def addYoutubeLinkRoute (u : UserRec) (url title : String) (now : Nat) :
    Nat × UserRec × Option LinkEntry :=
  if (isYoutubeUrl url && (title != "") && decide (title.length ≤ 100)) = false
  then (400, u, none)
  else
    let newLink := mkNewLink url title now
    (201,
     sequelizeUpdate u { u with youtubeLinks := u.youtubeLinks ++ [newLink] },
     some newLink)

/-- Model of the `removeYoutubeLink` controller on the authenticated user's
row: filter out entries whose `id` equals the given link id; if the length
is unchanged nothing matched and the handler returns 404 before any write;
otherwise the filtered collection is written back (200). -/
def removeYoutubeLinkRoute (u : UserRec) (linkId : String) : Nat × UserRec :=
  let current := u.youtubeLinks
  let updated := current.filter (fun l => l.id != some linkId)
  if current.length = updated.length then (404, u)
  else (200, sequelizeUpdate u { u with youtubeLinks := updated })

/-- A driver for the only password-changing path in the repository: an
update that assigns the `password` field, which the `beforeUpdate` hook
intercepts (hash + `tokenVersion` bump). -/
def changePassword (u : UserRec) (pw : String) : UserRec :=
  sequelizeUpdate u { u with password := pw }

/-- One item of the aggregated content feed produced by `getAllContent`. -/
structure ContentItem where
  id : String
  title : String
  url : String
  addedAt : Nat
  userId : String
  userName : String
deriving DecidableEq, Repr

/-- JS falsiness of an optional string field (`!link.id`): absent or empty. -/
def isBlank : Option String → Bool
  | none => true
  | some s => s.isEmpty

/-- Formatting of one link of one user into a feed item, with the fallbacks
of the source (`"Untitled Video"` for a missing title, the current time for
a missing date).  Only called on entries whose id and url are present. -/
def mkContentItem (now : Nat) (uid uname : String) (l : LinkEntry) :
    ContentItem :=
  { id := (match l.id with | some i => i | none => ""),
    title := (match l.title with
              | some t => if t.isEmpty then "Untitled Video" else t
              | none => "Untitled Video"),
    url := (match l.url with | some v => v | none => ""),
    addedAt := (match l.addedAt with | some d => d | none => now),
    userId := uid, userName := uname }

/-- Flattening step of `getAllContent`: keep users having at least one link
(the SQL `where` clause), then for each user keep the entries whose id and
url are present and annotate them with the owner's identity, in user order
then link order. -/
def flattenContent (now : Nat) (users : List UserRec) : List ContentItem :=
  (users.filter (fun u => !u.youtubeLinks.isEmpty)).flatMap
    (fun u =>
      (u.youtubeLinks.filter
        (fun l => !(isBlank l.id) && !(isBlank l.url))).map
        (mkContentItem now u.id u.name))

/-- Order used for `sortBy=newest` (and `popular`, which falls back to it):
later `addedAt` first.  The JS comparator is `new Date(b.addedAt) - new
Date(a.addedAt)`. -/
def newestRel (a b : ContentItem) : Prop := b.addedAt ≤ a.addedAt

instance : DecidableRel newestRel := fun a b => Nat.decLe b.addedAt a.addedAt

/-- Order used for `sortBy=oldest`: earlier `addedAt` first. -/
def oldestRel (a b : ContentItem) : Prop := a.addedAt ≤ b.addedAt

instance : DecidableRel oldestRel := fun a b => Nat.decLe a.addedAt b.addedAt

instance : IsTotal ContentItem newestRel :=
  ⟨fun a b => Nat.le_total b.addedAt a.addedAt⟩

instance : IsTrans ContentItem newestRel :=
  ⟨fun _ _ _ h1 h2 => Nat.le_trans h2 h1⟩

instance : IsTotal ContentItem oldestRel :=
  ⟨fun a b => Nat.le_total a.addedAt b.addedAt⟩

instance : IsTrans ContentItem oldestRel :=
  ⟨fun _ _ _ h1 h2 => Nat.le_trans h1 h2⟩

/-- Sorting step of `getAllContent`.  `Array.prototype.sort` is stable with
a consistent comparator, so it is modelled by a stable sort under the
corresponding total preorder; `newest`, `popular` and the default all use
the newest-first comparator. -/
def sortContent (sortBy : String) (l : List ContentItem) : List ContentItem :=
  if sortBy = "oldest" then List.insertionSort oldestRel l
  else List.insertionSort newestRel l

/-- Model of `parseInt(q) || d` on an already-numeric query value: absent
(`NaN`) and `0` are falsy and fall back to the default. -/
def jsParseIntOr (v : Option Int) (d : Int) : Int :=
  match v with
  | some n => if n = 0 then d else n
  | none => d

/-- Page normalization of `getAllContent`: `Math.max(1, parseInt(page) || 1)`. -/
def normPage (page? : Option Int) : Nat :=
  (max 1 (jsParseIntOr page? 1)).toNat

/-- Limit normalization of `getAllContent`:
`Math.min(50, Math.max(1, parseInt(limit) || 10))`. -/
def normLimit (limit? : Option Int) : Nat :=
  (min 50 (max 1 (jsParseIntOr limit? 10))).toNat

/-- Sort-key normalization of `getAllContent`: any value outside
newest/oldest/popular falls back to `newest`. -/
def normSort (sortBy? : Option String) : String :=
  match sortBy? with
  | some s =>
      if s = "newest" || s = "oldest" || s = "popular" then s else "newest"
  | none => "newest"

/-- Model of the Joi `getAllContent` query schema: `page` if supplied must
be an integer of at least 1, `limit` if supplied an integer in [1,50],
`sortBy` if supplied one of the three keywords.  All fields are optional. -/
def validateContentQuery (page? limit? : Option Int)
    (sortBy? : Option String) : Bool :=
  (match page? with
   | some p => decide (1 ≤ p)
   | none => true) &&
  (match limit? with
   | some l => decide (1 ≤ l) && decide (l ≤ 50)
   | none => true) &&
  (match sortBy? with
   | some s => s = "newest" || s = "oldest" || s = "popular"
   | none => true)

/-- `Math.ceil(total / limit)` on naturals. -/
def ceilDiv (a b : Nat) : Nat := (a + b - 1) / b

/-- Pagination metadata returned by the listing endpoints. -/
structure Pagination where
  total : Nat
  limit : Nat
  totalPages : Nat
  currentPage : Nat
  hasNextPage : Bool
  hasPreviousPage : Bool
  nextPage : Option Nat
  previousPage : Option Nat
deriving DecidableEq, Repr

/-- Outcome of `GET /users/content`: a Joi rejection (400) or a 200 page. -/
inductive ContentResult where
  | invalid (msg : String)
  | ok (data : List ContentItem) (pagination : Pagination)
deriving DecidableEq, Repr

/-- Whether the content request succeeded. -/
def ContentResult.isOk : ContentResult → Bool
  | .ok _ _ => true
  | .invalid _ => false

/-- Data page of a content result (empty on rejection). -/
def ContentResult.dataOf : ContentResult → List ContentItem
  | .ok d _ => d
  | .invalid _ => []

/-- Pagination metadata of a content result (zeros on rejection). -/
def ContentResult.pagOf : ContentResult → Pagination
  | .ok _ p => p
  | .invalid _ => ⟨0, 0, 0, 0, false, false, none, none⟩

/-- Model of the `getAllContent` controller: validate the query with Joi
(400 on failure), normalize page/limit/sortBy, flatten and sort all users'
links, then slice `[startIndex, endIndex)` where
`startIndex = (page-1)*limit` and `endIndex = min(startIndex+limit, total)`,
and assemble the pagination metadata. -/
def getAllContentRoute (users : List UserRec) (now : Nat)
    (page? limit? : Option Int) (sortBy? : Option String) : ContentResult :=
  if validateContentQuery page? limit? sortBy? = false then
    .invalid "Validation failed"
  else
    let page := normPage page?
    let limit := normLimit limit?
    let sortBy := normSort sortBy?
    let allContent := sortContent sortBy (flattenContent now users)
    let total := allContent.length
    let startIndex := (page - 1) * limit
    let endIndex := min (startIndex + limit) total
    .ok ((allContent.drop startIndex).take (endIndex - startIndex))
      { total := total,
        limit := limit,
        totalPages := ceilDiv total limit,
        currentPage := page,
        hasNextPage := decide (endIndex < total),
        hasPreviousPage := decide (1 < page),
        nextPage := if endIndex < total then some (page + 1) else none,
        previousPage := if 1 < page then some (page - 1) else none }

/-- Rendering of an optional string column into JSON (null rendered as the
empty rendering; only key presence matters to the claims below). -/
def optToString : Option String → String
  | some s => s
  | none => ""

/-- Rendering of a stored refresh token into its JSON value. -/
def jwtRender (t : Jwt) : String :=
  t.payload.userId ++ "#" ++ toString t.exp

/-- Model of `user.toJSON()` on a fully selected row: the complete list of
(column, value) pairs, including the sensitive ones. -/
def userToJSON (u : UserRec) : List (String × String) :=
  [("id", u.id), ("name", u.name), ("email", u.email),
   ("password", u.password),
   ("refreshToken", (match u.refreshTok with
                     | some t => jwtRender t
                     | none => "")),
   ("tokenVersion", toString u.tokenVersion),
   ("bio", optToString u.bio), ("location", optToString u.location),
   ("profilePicture", optToString u.profilePicture),
   ("youtubeLinks", toString u.youtubeLinks.length)]

/-- Model of a Sequelize query with `attributes: { exclude: names }`: the
serialized row lacks exactly those keys. -/
def selectExcluding (names : List String) (u : UserRec) :
    List (String × String) :=
  (userToJSON u).filter (fun kv => !(names.contains kv.1))

/-- The exclusion list used by every read path of the user controller. -/
def sensitiveAttrs : List String := ["password", "refreshToken", "tokenVersion"]

/-- User object returned by `getUsers`, `getUserById`, `getProfile`,
`updateProfile`, `addYoutubeLink` and `removeYoutubeLink`: the row selected
with the sensitive attributes excluded, plus the synthesized
`profilePictureUrl`. -/
def publicUserJSON (u : UserRec) : List (String × String) :=
  selectExcluding sensitiveAttrs u ++
    [("profilePictureUrl", "/api/v1/users/" ++ u.id ++ "/profile-picture")]

/-- Model of the JS `delete obj[k]` on a serialized object. -/
def deleteKey (k : String) (l : List (String × String)) :
    List (String × String) :=
  l.filter (fun kv => kv.1 != k)

/-- User object returned by `signUp` and `signIn`: the full `toJSON()`
with `password` and `refreshToken` deleted before responding. -/
def authUserJSON (u : UserRec) : List (String × String) :=
  deleteKey "refreshToken" (deleteKey "password" (userToJSON u))

/-- Owner object attached to each feed item by `getAllContent`: only id,
name and the synthesized picture URL. -/
def contentItemUserJSON (c : ContentItem) : List (String × String) :=
  [("id", c.userId), ("name", c.userName),
   ("profilePictureUrl", "/api/v1/users/" ++ c.userId ++ "/profile-picture")]

/-- First link of fixture user A, added at time 100 (the d1 of the spec's
scenario). -/
def linkA1 : LinkEntry :=
  { id := some "a1", url := some "https://youtube.com/watch?v=1",
    title := some "first", addedAt := some 100 }

/-- Second link of fixture user A, added at time 300 (the spec's d2). -/
def linkA2 : LinkEntry :=
  { id := some "a2", url := some "https://youtube.com/watch?v=2",
    title := some "second", addedAt := some 300 }

/-- Only link of fixture user B, added at time 200 (the spec's d3, strictly
between d1 and d2). -/
def linkB1 : LinkEntry :=
  { id := some "b1", url := some "https://youtu.be/3",
    title := some "third", addedAt := some 200 }

/-- Fixture user A with two links at times 100 and 300. -/
def userA : UserRec :=
  { id := "u-a", name := "Ann Lee", email := "ann@x.com",
    password := "bcrypt$password1", refreshTok := none, tokenVersion := 0,
    bio := none, location := none, profilePicture := none,
    youtubeLinks := [linkA1, linkA2] }

/-- Fixture user B with one link at time 200. -/
def userB : UserRec :=
  { id := "u-b", name := "Bob Roy", email := "bob@x.com",
    password := "bcrypt$password2", refreshTok := none, tokenVersion := 0,
    bio := none, location := none, profilePicture := none,
    youtubeLinks := [linkB1] }

/-- A refresh token as `generateTokens` signs it for user A at time 0 and
`tokenVersion` 0. -/
def tokenA : Jwt :=
  { payload := { userId := "u-a", version := some 0 },
    secret := jwtSecretLiteral, exp := refreshTokenLife }

/-- Fixture user A as stored right after that refresh token was issued. -/
def userARefreshed : UserRec := { userA with refreshTok := some tokenA }

/-- Slice arithmetic of the pagination: taking up to
`min (start + limit) total - start` elements after dropping `start` is the
same as taking up to `limit` elements. -/
lemma drop_take_min {α : Type} (xs : List α) (a k : Nat) :
    (xs.drop a).take (min (a + k) xs.length - a) = (xs.drop a).take k := by
  rcases Nat.le_total (a + k) xs.length with h | h
  · rw [Nat.min_eq_left h, Nat.add_sub_cancel_left]
  · have h1 : (xs.drop a).length ≤ xs.length - a := by
      rw [List.length_drop]
    have h2 : (xs.drop a).length ≤ k := by
      rw [List.length_drop]; omega
    rw [Nat.min_eq_right h, List.take_of_length_le h1,
      List.take_of_length_le h2]

/-- A supplied page that passes validation is returned unchanged by the
normalization. -/
lemma normPage_eq (p : Int) (hp : 1 ≤ p) : normPage (some p) = p.toNat := by
  simp only [normPage, jsParseIntOr]
  rw [if_neg (by omega), max_eq_right hp]

/-- A supplied limit that passes validation is returned unchanged by the
normalization. -/
lemma normLimit_eq (l : Int) (h1 : 1 ≤ l) (h2 : l ≤ 50) :
    normLimit (some l) = l.toNat := by
  simp only [normLimit, jsParseIntOr]
  rw [if_neg (by omega), max_eq_right h1, min_eq_right h2]

/-- A supplied sort keyword among the three allowed ones is returned
unchanged by the normalization. -/
lemma normSort_eq (s : String)
    (hs : s = "newest" ∨ s = "oldest" ∨ s = "popular") :
    normSort (some s) = s := by
  unfold normSort
  rcases hs with h | h | h <;> subst h <;> rfl

/-- The normalized page is always at least 1. -/
lemma normPage_ge_one (q : Option Int) : 1 ≤ normPage q := by
  unfold normPage
  have h1 : 1 ≤ max 1 (jsParseIntOr q 1) := le_max_left _ _
  omega

/-- The normalized limit always lies in [1, 50]. -/
lemma normLimit_bounds (q : Option Int) :
    1 ≤ normLimit q ∧ normLimit q ≤ 50 := by
  unfold normLimit
  have h1 : 1 ≤ max 1 (jsParseIntOr q 10) := le_max_left _ _
  have h2 : 1 ≤ min 50 (max 1 (jsParseIntOr q 10)) :=
    le_min (by norm_num) h1
  have h3 : min 50 (max 1 (jsParseIntOr q 10)) ≤ 50 := min_le_left _ _
  omega

/-- In-range supplied query values pass the Joi schema. -/
lemma validateContentQuery_inrange (p l : Int) (s : String)
    (hp : 1 ≤ p) (h1 : 1 ≤ l) (h2 : l ≤ 50)
    (hs : s = "newest" ∨ s = "oldest" ∨ s = "popular") :
    validateContentQuery (some p) (some l) (some s) = true := by
  unfold validateContentQuery
  rcases hs with h | h | h <;> subst h <;> simp [hp, h1, h2]

/-- C8: removing a link id that occurs nowhere in the user's collection
answers 404 and performs no write: the handler compares the collection
length before and after filtering, finds them equal, and returns before
`user.update` is reached, leaving the row untouched. -/
theorem remove_missing_link (u : UserRec) (linkId : String)
    (h : ∀ lk ∈ u.youtubeLinks, lk.id ≠ some linkId) :
    removeYoutubeLinkRoute u linkId = (404, u) := by
  simp only [removeYoutubeLinkRoute]
  have hfilter :
      u.youtubeLinks.filter (fun l => l.id != some linkId) = u.youtubeLinks :=
    List.filter_eq_self.mpr (fun a ha => by
      simpa [bne_iff_ne] using h a ha)
  rw [hfilter, if_pos rfl]

/-- Witness for C8 on a concrete user and a concrete absent id. -/
theorem remove_missing_link_witness :
    removeYoutubeLinkRoute userA "zzz" = (404, userA) :=
  remove_missing_link userA "zzz" (by decide)


/-- C7: adding a YouTube link and then removing it by the id the add
returned restores the user's row — in particular the `youtubeLinks`
collection — exactly as it was before the add.  The generated id
(`Date.now().toString()`) is assumed fresh for the collection, which is the
data model's id-uniqueness invariant; without it the removal filter would
also delete the colliding older entry. -/
theorem add_remove_roundtrip (u : UserRec) (url title : String) (now : Nat)
    (hurl : isYoutubeUrl url = true) (ht : title ≠ "")
    (hlen : title.length ≤ 100)
    (hfresh : ∀ lk ∈ u.youtubeLinks, lk.id ≠ some (toString now)) :
    addYoutubeLinkRoute u url title now =
      (201,
       { u with youtubeLinks := u.youtubeLinks ++ [mkNewLink url title now] },
       some (mkNewLink url title now)) ∧
    removeYoutubeLinkRoute
      { u with youtubeLinks := u.youtubeLinks ++ [mkNewLink url title now] }
      (optToString (mkNewLink url title now).id) = (200, u) := by
  have hfilter :
      (u.youtubeLinks ++ [mkNewLink url title now]).filter
        (fun l => l.id != some (optToString (mkNewLink url title now).id)) =
      u.youtubeLinks := by
    rw [List.filter_append]
    have hl :
        u.youtubeLinks.filter
          (fun l => l.id != some (optToString (mkNewLink url title now).id)) =
        u.youtubeLinks :=
      List.filter_eq_self.mpr (fun a ha => by
        simpa [bne_iff_ne, mkNewLink, optToString] using hfresh a ha)
    have hr :
        [mkNewLink url title now].filter
          (fun l => l.id != some (optToString (mkNewLink url title now).id)) =
        [] := by
      simp [mkNewLink, optToString]
    rw [hl, hr, List.append_nil]
  constructor
  · simp only [addYoutubeLinkRoute]
    rw [if_neg (by simp [hurl, ht, hlen])]
    simp [sequelizeUpdate]
  · simp only [removeYoutubeLinkRoute]
    rw [hfilter]
    rw [if_neg (by simp)]
    simp [sequelizeUpdate]

set_option maxRecDepth 4096 in
/-- Witness for C7 on a concrete user, URL, title and clock value. -/
theorem add_remove_roundtrip_witness :
    removeYoutubeLinkRoute
      { userA with
        youtubeLinks :=
          userA.youtubeLinks ++ [mkNewLink "https://youtube.com/w" "talk" 7] }
      (optToString (mkNewLink "https://youtube.com/w" "talk" 7).id) =
    (200, userA) :=
  (add_remove_roundtrip userA "https://youtube.com/w" "talk" 7
    (by decide) (by decide) (by decide) (by decide)).2

/-- C10: the `updateProfile` endpoint can change only name, email, bio,
location and (on upload) the profile picture: on every path — validation
failure, email conflict, or successful write through the `beforeUpdate`
hook — the row's id, password, stored refresh token, `tokenVersion` and
`youtubeLinks` are unchanged. -/
theorem updateProfile_frame (store : List UserRec) (u : UserRec)
    (name? email? bio? loc? file? : Option String) :
    ((updateProfileRoute store u name? email? bio? loc? file?).2).password
        = u.password ∧
    ((updateProfileRoute store u name? email? bio? loc? file?).2).refreshTok
        = u.refreshTok ∧
    ((updateProfileRoute store u name? email? bio? loc? file?).2).tokenVersion
        = u.tokenVersion ∧
    ((updateProfileRoute store u name? email? bio? loc? file?).2).youtubeLinks
        = u.youtubeLinks ∧
    ((updateProfileRoute store u name? email? bio? loc? file?).2).id = u.id := by
  unfold updateProfileRoute
  split
  · exact ⟨rfl, rfl, rfl, rfl, rfl⟩
  · split
    · exact ⟨rfl, rfl, rfl, rfl, rfl⟩
    · simp [sequelizeUpdate]

/-- C9: no read path serializes the password hash.  `publicUserJSON` is the
user object of `getUsers`, `getUserById`, `getProfile`, `updateProfile` and
the link endpoints (attributes excluded at the query), `authUserJSON` the
user object of `signUp`/`signIn` (keys deleted from `toJSON()`), and
`contentItemUserJSON` the owner object attached to every feed item: none of
them contains a `password` key. -/
theorem password_never_serialized :
    ∀ (u : UserRec) (c : ContentItem),
    ((publicUserJSON u).map Prod.fst).contains "password" = false ∧
    ((authUserJSON u).map Prod.fst).contains "password" = false ∧
    ((contentItemUserJSON c).map Prod.fst).contains "password" = false :=
  fun _ _ => ⟨rfl, rfl, rfl⟩

/-- The store is never written by the refresh endpoint. -/
lemma refreshEndpoint_store_eq (store : List UserRec) (tok? : Option Jwt)
    (now : Nat) : (refreshEndpoint store tok? now).2 = store := by
  cases tok? with
  | none => rfl
  | some t =>
    cases hjv : jwtVerify t jwtSecretLiteral now with
    | none => simp [refreshEndpoint, hjv]
    | some d =>
      cases hf : findUser store d.userId with
      | none => simp [refreshEndpoint, hjv, hf]
      | some u =>
        simp only [refreshEndpoint, hjv, hf]
        by_cases hrt : u.refreshTok ≠ some t
        · rw [if_pos hrt]
        · rw [if_neg hrt]
          by_cases hv : d.version ≠ some u.tokenVersion
          · rw [if_pos hv]
          · rw [if_neg hv]

/-- C1: `tokenVersion` is bumped exactly once by a password change (the
`beforeUpdate` hook) and exactly once by a signed-out user's `signOut`, and
by nothing else: profile update, link add/remove, sign-in token issuance
and refresh leave it unchanged; and a refresh token whose embedded version
claim is `v` is rejected with 401 once the user's `tokenVersion` is `v+1`. -/
theorem tokenVersion_lifecycle (store : List UserRec) (u u2 : UserRec)
    (name? email? bio? loc? file? : Option String)
    (url title linkId pw : String) (now nows nowr : Nat)
    (t t2 : Jwt) (bl : List Jwt) (tok? : Option Jwt) (v : Nat)
    (hpw : pw ≠ u.password) (hid : u.id ≠ "")
    (hts : t.payload.userId = u.id) (hsec : t.secret = jwtSecretLiteral)
    (hexp : nows < t.exp)
    (ht2v : t2.payload.version = some v) (hu2 : u2.tokenVersion = v + 1) :
    ((updateProfileRoute store u name? email? bio? loc? file?).2).tokenVersion
        = u.tokenVersion ∧
    ((addYoutubeLinkRoute u url title now).2.1).tokenVersion
        = u.tokenVersion ∧
    ((removeYoutubeLinkRoute u linkId).2).tokenVersion = u.tokenVersion ∧
    ((generateTokens u now).2.2).tokenVersion = u.tokenVersion ∧
    (refreshEndpoint store tok? now).2 = store ∧
    (changePassword u pw).tokenVersion = u.tokenVersion + 1 ∧
    signOutController [u] bl (some t) true nows =
      (200, [bumpedOnSignOut u], t :: bl) ∧
    ((refreshEndpoint [u2] (some t2) nowr).1).is401 = true := by
  refine ⟨?_, ?_, ?_, ?_, refreshEndpoint_store_eq store tok? now, ?_, ?_, ?_⟩
  · unfold updateProfileRoute
    split
    · rfl
    · split
      · rfl
      · simp [sequelizeUpdate]
  · unfold addYoutubeLinkRoute
    split
    · rfl
    · simp [sequelizeUpdate]
  · simp only [removeYoutubeLinkRoute]
    split
    · rfl
    · simp [sequelizeUpdate]
  · simp [generateTokens, sequelizeUpdate]
  · simp [changePassword, sequelizeUpdate, hpw]
  · have hv : jwtVerify t jwtSecretLiteral nows = some t.payload := by
      simp [jwtVerify, hsec, hexp]
    have hid' : t.payload.userId ≠ "" := by rw [hts]; exact hid
    have hf : findUser [u] u.id = some u := by
      simp [findUser, List.find?]
    simp [signOutController, hv, hid', hf, hid, sequelizeUpdate,
      bumpedOnSignOut, hts]
  · cases hjv : jwtVerify t2 jwtSecretLiteral nowr with
    | none => simp [refreshEndpoint, hjv, RefreshOutcome.is401]
    | some d =>
      have hd : d = t2.payload := by
        unfold jwtVerify at hjv
        split at hjv
        · exact (Option.some.inj hjv).symm
        · exact absurd hjv (by simp)
      subst hd
      cases hf : findUser [u2] t2.payload.userId with
      | none => simp [refreshEndpoint, hjv, hf, RefreshOutcome.is401]
      | some w =>
        have hw : w = u2 := by
          unfold findUser at hf
          simp only [List.find?] at hf
          split at hf
          · exact (Option.some.inj hf).symm
          · exact absurd hf (by simp)
        subst hw
        simp only [refreshEndpoint, hjv, hf]
        by_cases hrt : w.refreshTok ≠ some t2
        · rw [if_pos hrt]; rfl
        · rw [if_neg hrt]
          have hne : t2.payload.version ≠ some w.tokenVersion := by
            rw [ht2v, hu2]
            intro hcontra
            exact absurd (Option.some.inj hcontra) (by omega)
          rw [if_pos hne]
          rfl

/-- Witness for C1: the concrete fixture user, a fresh password, the
fixture refresh token, and the post-sign-out row. -/
theorem tokenVersion_lifecycle_witness :
    (changePassword userA "newpassword").tokenVersion
        = userA.tokenVersion + 1 ∧
    ((refreshEndpoint [bumpedOnSignOut userA] (some tokenA) 0).1).is401
        = true :=
  ⟨(tokenVersion_lifecycle [userB] userA (bumpedOnSignOut userA)
      none none none none none "https://youtube.com/w" "talk" "zzz"
      "newpassword" 7 1 0 tokenA tokenA [] none 0
      (by decide) (by decide) (by decide) (by decide) (by decide)
      (by decide) (by decide)).2.2.2.2.2.1,
   (tokenVersion_lifecycle [userB] userA (bumpedOnSignOut userA)
      none none none none none "https://youtube.com/w" "talk" "zzz"
      "newpassword" 7 1 0 tokenA tokenA [] none 0
      (by decide) (by decide) (by decide) (by decide) (by decide)
      (by decide) (by decide)).2.2.2.2.2.2.2⟩

/-- C2: with the user named by the presented refresh token loaded, the
refresh endpoint answers 401 exactly when the token's signature or expiry
fails verification, or it differs from the stored refresh token, or its
embedded version claim differs from the user's current `tokenVersion`;
otherwise it answers 200 with a newly signed access token for that user,
and no path writes to the store. -/
theorem refresh_endpoint_spec (store : List UserRec) (t : Jwt) (now : Nat)
    (u : UserRec) (hu : findUser store t.payload.userId = some u) :
    (((refreshEndpoint store (some t) now).1).is401 = true ↔
      (t.secret ≠ jwtSecretLiteral ∨ t.exp ≤ now ∨
       u.refreshTok ≠ some t ∨
       t.payload.version ≠ some u.tokenVersion)) ∧
    (((refreshEndpoint store (some t) now).1).is401 = false →
      refreshEndpoint store (some t) now =
        (RefreshOutcome.ok
          { payload := { userId := u.id, version := none },
            secret := jwtSecretLiteral, exp := now + accessTokenLife },
         store)) := by
  by_cases hsig : t.secret = jwtSecretLiteral ∧ now < t.exp
  · have hv : jwtVerify t jwtSecretLiteral now = some t.payload := by
      simp [jwtVerify, hsig]
    simp only [refreshEndpoint, hv, hu]
    by_cases hrt : u.refreshTok ≠ some t
    · rw [if_pos hrt]
      constructor
      · simp only [RefreshOutcome.is401, true_iff]
        exact Or.inr (Or.inr (Or.inl hrt))
      · intro hfalse
        exact absurd hfalse (by simp [RefreshOutcome.is401])
    · rw [if_neg hrt]
      by_cases hver : t.payload.version ≠ some u.tokenVersion
      · rw [if_pos hver]
        constructor
        · simp only [RefreshOutcome.is401, true_iff]
          exact Or.inr (Or.inr (Or.inr hver))
        · intro hfalse
          exact absurd hfalse (by simp [RefreshOutcome.is401])
      · rw [if_neg hver]
        constructor
        · simp only [RefreshOutcome.is401]
          constructor
          · intro hcontra
            simp at hcontra
          · rintro (h | h | h | h)
            · exact (h hsig.1).elim
            · exact ((Nat.not_le.mpr hsig.2) h).elim
            · exact (hrt h).elim
            · exact (hver h).elim
        · intro _
          rfl
  · have hv : jwtVerify t jwtSecretLiteral now = none := by
      simp only [jwtVerify, if_neg hsig]
    simp only [refreshEndpoint, hv]
    constructor
    · simp only [RefreshOutcome.is401, true_iff]
      rcases not_and_or.mp hsig with h | h
      · exact Or.inl h
      · exact Or.inr (Or.inl (Nat.not_lt.mp h))
    · intro hfalse
      exact absurd hfalse (by simp [RefreshOutcome.is401])

/-- Witness for C2: the fixture user holding the fixture refresh token; the
success branch applies and produces the expected access token. -/
theorem refresh_endpoint_spec_witness :
    refreshEndpoint [userARefreshed] (some tokenA) 10 =
      (RefreshOutcome.ok
        { payload := { userId := "u-a", version := none },
          secret := jwtSecretLiteral, exp := 10 + accessTokenLife },
       [userARefreshed]) := by
  have h := (refresh_endpoint_spec [userARefreshed] tokenA 10 userARefreshed
    (by decide)).2 (by decide)
  simpa using h

/-- C3: for every store and every valid (page, limit, sortBy) input the
content listing succeeds and returns exactly the slice
`[(page-1)*limit, min((page-1)*limit + limit, total))` of the flattened
collection (malformed entries discarded) sorted by `addedAt` — descending
for `newest`/`popular`, ascending for `oldest` (the sorted sequence being a
permutation of the flattened one); and on the concrete two-user scenario
(A with links at 100 and 300, B with one at 200) `newest` yields ids in
descending date order across owners, `oldest` reverses it, and page 2 with
limit 1 returns exactly the second item with both page flags true. -/
theorem content_feed_spec (users : List UserRec) (now : Nat) (p l : Int)
    (s : String) (hp : 1 ≤ p) (h1 : 1 ≤ l) (h2 : l ≤ 50)
    (hs : s = "newest" ∨ s = "oldest" ∨ s = "popular") :
    (getAllContentRoute users now (some p) (some l) (some s)).isOk = true ∧
    (getAllContentRoute users now (some p) (some l) (some s)).dataOf =
      ((sortContent s (flattenContent now users)).drop
        ((p.toNat - 1) * l.toNat)).take l.toNat ∧
    (s ≠ "oldest" →
      List.Sorted newestRel (sortContent s (flattenContent now users))) ∧
    (s = "oldest" →
      List.Sorted oldestRel (sortContent s (flattenContent now users))) ∧
    (sortContent s (flattenContent now users)).Perm
      (flattenContent now users) ∧
    (getAllContentRoute [userA, userB] 7 none none
        (some "newest")).dataOf.map ContentItem.id = ["a2", "b1", "a1"] ∧
    (getAllContentRoute [userA, userB] 7 none none
        (some "oldest")).dataOf.map ContentItem.id = ["a1", "b1", "a2"] ∧
    (getAllContentRoute [userA, userB] 7 (some 2) (some 1)
        (some "newest")).dataOf.map ContentItem.id = ["b1"] ∧
    (getAllContentRoute [userA, userB] 7 (some 2) (some 1)
        (some "newest")).pagOf.hasNextPage = true ∧
    (getAllContentRoute [userA, userB] 7 (some 2) (some 1)
        (some "newest")).pagOf.hasPreviousPage = true := by
  have hval := validateContentQuery_inrange p l s hp h1 h2 hs
  have hroute :
      getAllContentRoute users now (some p) (some l) (some s) =
      ContentResult.ok
        (((sortContent s (flattenContent now users)).drop
            ((p.toNat - 1) * l.toNat)).take l.toNat)
        { total := (sortContent s (flattenContent now users)).length,
          limit := l.toNat,
          totalPages :=
            ceilDiv (sortContent s (flattenContent now users)).length l.toNat,
          currentPage := p.toNat,
          hasNextPage :=
            decide (min ((p.toNat - 1) * l.toNat + l.toNat)
                (sortContent s (flattenContent now users)).length <
              (sortContent s (flattenContent now users)).length),
          hasPreviousPage := decide (1 < p.toNat),
          nextPage :=
            if min ((p.toNat - 1) * l.toNat + l.toNat)
                (sortContent s (flattenContent now users)).length <
              (sortContent s (flattenContent now users)).length
            then some (p.toNat + 1) else none,
          previousPage :=
            if 1 < p.toNat then some (p.toNat - 1) else none } := by
    simp only [getAllContentRoute, hval, Bool.true_eq_false, if_false,
      normPage_eq p hp, normLimit_eq l h1 h2, normSort_eq s hs]
    rw [drop_take_min]
  refine ⟨?_, ?_, ?_, ?_, ?_, by decide, by decide, by decide, by decide,
    by decide⟩
  · rw [hroute]; rfl
  · rw [hroute]; rfl
  · intro hne
    unfold sortContent
    rw [if_neg hne]
    exact List.sorted_insertionSort newestRel (flattenContent now users)
  · intro he
    unfold sortContent
    rw [if_pos he]
    exact List.sorted_insertionSort oldestRel (flattenContent now users)
  · unfold sortContent
    by_cases he : s = "oldest"
    · rw [if_pos he]
      exact List.perm_insertionSort oldestRel (flattenContent now users)
    · rw [if_neg he]
      exact List.perm_insertionSort newestRel (flattenContent now users)

/-- Witness for C3 at page 2, limit 1, `sortBy=newest` on the fixture
store. -/
theorem content_feed_spec_witness :
    (getAllContentRoute [userA, userB] 7 (some 2) (some 1)
      (some "newest")).dataOf.map ContentItem.id = ["b1"] :=
  (content_feed_spec [userA, userB] 7 2 1 "newest"
    (by decide) (by decide) (by decide) (Or.inl rfl)).2.2.2.2.2.2.2.1

/-- C4 counterexample: a request with page=0 and limit=51 is rejected by
the Joi schema with 400 — it does not succeed with clamped values as the
claim states. -/
theorem pagination_clamp_counterexample :
    (getAllContentRoute [userA, userB] 7 (some 0) (some 51) none).isOk
      = false := by decide

/-- C4 amended: a supplied page below 1 or limit outside [1,50] causes the
whole request to be rejected with 400 by the Joi validation that runs
before the clamping expressions; the clamps themselves are the identity on
values that pass validation, default absent page/limit to 1 and 10, and
always produce a page of at least 1 and a limit inside [1,50]. -/
theorem pagination_validation_amended (users : List UserRec) (now : Nat)
    (page? limit? : Option Int) (sortBy? : Option String) (p l : Int)
    (q r : Option Int)
    (hbad : validateContentQuery page? limit? sortBy? = false)
    (hp : 1 ≤ p) (h1 : 1 ≤ l) (h2 : l ≤ 50) :
    getAllContentRoute users now page? limit? sortBy? =
      ContentResult.invalid "Validation failed" ∧
    normPage (some p) = p.toNat ∧
    normLimit (some l) = l.toNat ∧
    normPage none = 1 ∧
    normLimit none = 10 ∧
    1 ≤ normPage q ∧
    (1 ≤ normLimit r ∧ normLimit r ≤ 50) := by
  refine ⟨?_, normPage_eq p hp, normLimit_eq l h1 h2, rfl, rfl,
    normPage_ge_one q, normLimit_bounds r⟩
  simp [getAllContentRoute, hbad]

/-- Witness for C4's amended theorem on concrete out-of-range inputs. -/
theorem pagination_validation_amended_witness :
    getAllContentRoute [userA, userB] 7 (some 0) (some 51) none =
      ContentResult.invalid "Validation failed" ∧
    normPage (some 3) = 3 ∧
    normLimit (some 25) = 25 :=
  have h := pagination_validation_amended [userA, userB] 7
    (some 0) (some 51) none 3 25 (some (-4)) (some 99)
    (by decide) (by decide) (by decide) (by decide)
  ⟨h.1, h.2.1, h.2.2.1⟩

/-- C5 counterexample: an access token freshly issued by `generateTokens`
— unexpired, not blacklisted, its user present — is rejected by the
`authorize` middleware when the `JWT_SECRET` environment value differs
from the hard-coded literal the controller signs with, so issuance and
verification do not use one shared secret. -/
theorem issued_token_env_secret_counterexample :
    (authorize [(generateTokens userA 0).2.2] [] "env-secret"
      (some (generateTokens userA 0).1) 1).isGranted = false := by decide

/-- C5 amended: the sign-in round trip holds exactly under the deployment
assumption that `JWT_SECRET` equals the hard-coded signing literal: then
`authorize` accepts a freshly issued, unexpired, unrevoked access token
and resolves it to the issuing user's row (whose id is the user's id). -/
theorem issued_token_roundtrip_amended (u : UserRec) (bl : List Jwt)
    (now now2 : Nat) (hid : u.id ≠ "")
    (hbl : bl.contains (generateTokens u now).1 = false)
    (hexp : now2 < now + accessTokenLife) :
    authorize [(generateTokens u now).2.2] bl jwtSecretLiteral
        (some (generateTokens u now).1) now2 =
      AuthResult.granted ((generateTokens u now).2.2) ∧
    ((generateTokens u now).2.2).id = u.id := by
  have hgen : (generateTokens u now).2.2 =
      { u with refreshTok := some (generateTokens u now).2.1 } := by
    simp [generateTokens, sequelizeUpdate]
  constructor
  · have hv : jwtVerify (generateTokens u now).1 jwtSecretLiteral now2 =
        some { userId := u.id, version := none } := by
      simp [generateTokens, jwtVerify, hexp]
    have hf : findUser [(generateTokens u now).2.2] u.id =
        some ((generateTokens u now).2.2) := by
      rw [hgen]
      simp [findUser, List.find?]
    simp only [authorize, hbl, Bool.false_eq_true, if_false, hv, hid,
      if_neg hid, hf]
  · rw [hgen]

/-- Witness for C5's amended theorem: fixture user A, empty blacklist,
issuance at time 0, verification at time 1. -/
theorem issued_token_roundtrip_amended_witness :
    authorize [(generateTokens userA 0).2.2] [] jwtSecretLiteral
        (some (generateTokens userA 0).1) 1 =
      AuthResult.granted ((generateTokens userA 0).2.2) ∧
    ((generateTokens userA 0).2.2).id = userA.id :=
  issued_token_roundtrip_amended userA [] 0 1
    (by decide) (by decide) (by decide)

/-- C6 counterexample: `POST /auth/signout` with an already-blacklisted
bearer token answers 401, not 200 — the route runs the `authorize`
middleware before the `signOut` handler, and the middleware rejects
invalid (blacklisted, expired or malformed) tokens. -/
theorem signout_blacklisted_counterexample :
    (signoutRoute [userA] [tokenA] jwtSecretLiteral (some tokenA) 1).1
      = 401 := by decide

/-- C6 amended: the signout route answers 200 exactly on requests the
`authorize` middleware lets through (valid unblacklisted token of an
existing user); the `signOut` handler itself answers 200 on every input,
including invalid tokens, but invalid tokens never reach it on this
route. -/
theorem signout_route_status (store : List UserRec) (bl : List Jwt)
    (es : String) (tok? : Option Jwt) (now : Nat) (reqUserSet : Bool)
    (u : UserRec)
    (hgrant : authorize store bl es tok? now = AuthResult.granted u) :
    (signoutRoute store bl es tok? now).1 = 200 ∧
    (signOutController store bl tok? reqUserSet now).1 = 200 := by
  have hctl : ∀ (st : List UserRec) (b : List Jwt) (tk : Option Jwt)
      (rq : Bool) (n : Nat), (signOutController st b tk rq n).1 = 200 := by
    intro st b tk rq n
    cases tk with
    | none => rfl
    | some t =>
      cases hjv : jwtVerify t jwtSecretLiteral n with
      | none => simp [signOutController, hjv]
      | some d =>
        simp only [signOutController, hjv]
        split
        · cases hf : findUser st d.userId with
          | none => simp [hf]
          | some w => simp [hf]
        · rfl
  constructor
  · unfold signoutRoute
    rw [hgrant]
    exact hctl store bl tok? true now
  · exact hctl store bl tok? reqUserSet now

/-- Witness for C6's amended theorem: a valid token of fixture user A with
an empty blacklist passes `authorize`, and the route answers 200. -/
theorem signout_route_status_witness :
    (signoutRoute [userA] [] jwtSecretLiteral (some tokenA) 1).1 = 200 ∧
    (signOutController [userA] [] (some tokenA) true 1).1 = 200 :=
  signout_route_status [userA] [] jwtSecretLiteral (some tokenA) 1 true
    userA (by decide)

end UserApi
